import Mathlib

/-!
Verification of the Product CRUD pipeline of the
backend-context-engineering-template repository.

The Go source is embedded shallowly:

* `int64` / `int` values become `Int` (none of the verified operations can
  overflow 64 bits on the inputs the claims quantify over);
* `float64` (the `price` field) becomes `Rat`: every verified property only
  compares prices, never computes with them, and strict comparison against
  zero on floats is order-faithful to the rational embedding;
* `sql.NullString` becomes the `NullString` structure below;
* `time.Time` timestamps become `Nat` clock readings; the SQL `NOW()` is an
  explicit `now : Nat` argument of the operations that use it;
* Go `error` results become `Except AppError` / `Option`, where `AppError`
  models the sentinel-error kinds (`domain.ErrProductNotFound`,
  `domain.ErrInvalidProduct`, `domain.ErrDuplicateProduct`, and generic
  wrapped errors) as matched by the delivery layer through `errors.Is`;
* the PostgreSQL table behind `ProductRepository` becomes the `DB` state
  (a list of rows plus the serial-sequence counter), with the semantics of
  the repository's parameterized SQL statements spelled out on that state;
* Go `len` on strings is byte length, embedded as `goLen`.
-/

/-- Go `len(s)`: the number of UTF-8 bytes of the string. -/
def goLen (s : String) : Nat := s.utf8ByteSize

/-- Embedding of Go `database/sql.NullString`: `str` is the `String` field,
`valid` the `Valid` field. -/
structure NullString where
  str : String
  valid : Bool
  deriving DecidableEq, Repr

/-- Embedding of `internal/domain.Product`. -/
structure Product where
  ID : Int
  StoreID : Int
  Name : String
  Description : NullString
  Amount : Int
  Price : Rat
  CreatedAt : Nat
  UpdatedAt : Nat
  deriving DecidableEq, Repr

/-- Embedding of `domain.Product.IsValidPrice`: `return p.Price > 0`. -/
def Product.IsValidPrice (p : Product) : Bool := decide (p.Price > 0)

/-- Embedding of `domain.Product.Validate` (internal/domain, part_006).
`none` models the `nil` return; `some msg` models `errors.New(msg)`. -/
def Product.Validate (p : Product) : Option String :=
  if p.StoreID ≤ 0 then some "store_id must be positive"
  else if p.Name = "" then some "name is required"
  else if goLen p.Name > 100 then some "name must not exceed 100 characters"
  else if p.Description.valid ∧ goLen p.Description.str > 1000 then
    some "description must not exceed 1000 characters"
  else if p.Amount < 0 then some "amount must be non-negative"
  else if !p.IsValidPrice then some "price must be positive"
  else none

/-- The error kinds of the domain error taxonomy, as distinguished by
`errors.Is` against the sentinels in internal/domain/errors.go.  The
payload of `invalidProduct` and `internal` is the rendered error message;
`productNotFound` and `duplicateProduct` render to fixed sentinel messages
that no verified code path inspects. -/
inductive AppError where
  | productNotFound
  | invalidProduct (msg : String)
  | duplicateProduct
  | internal (msg : String)
  deriving DecidableEq, Repr

/-- Embedding of wrapping with `fmt.Errorf("<ctx>: %w", err)`: the message
is prefixed while `errors.Is` keeps matching the wrapped sentinel, so the
kind is preserved. -/
def wrapErr (ctx : String) : AppError → AppError
  | .internal msg => .internal (ctx ++ ": " ++ msg)
  | e => e

/-- Embedding of `nullStringFromString` (internal/repository/postgres,
part_003): the empty string becomes the SQL NULL wrapper, anything else a
valid `NullString`. -/
def nullStringFromString (s : String) : NullString :=
  if s = "" then ⟨"", false⟩ else ⟨s, true⟩

/-- The SQL value a `NullString` binds to: NULL when not valid. -/
def NullString.toSql (n : NullString) : Option String :=
  if n.valid then some n.str else none

/-- Scanning a nullable text column back into `sql.NullString`: NULL scans
to the zero value `{String:"", Valid:false}`. -/
def scanNullString : Option String → NullString
  | some s => ⟨s, true⟩
  | none => ⟨"", false⟩

/-- A row of the `products` table (migrations/001): `id` serial primary
key, `description` nullable text, timestamps. -/
structure Row where
  id : Int
  store_id : Int
  name : String
  description : Option String
  amount : Int
  price : Rat
  created_at : Nat
  updated_at : Nat
  deriving DecidableEq, Repr

/-- The relational store behind `postgres.ProductRepository`: the rows of
the `products` table and the next value of the `id` serial sequence. -/
structure DB where
  rows : List Row
  nextId : Int
  deriving DecidableEq, Repr

/-- Scanning a full row into a `domain.Product`, as every
`row.Scan(&result.ID, ..., &result.UpdatedAt)` call in part_003 does. -/
def Row.scan (r : Row) : Product :=
  { ID := r.id, StoreID := r.store_id, Name := r.name,
    Description := scanNullString r.description,
    Amount := r.amount, Price := r.price,
    CreatedAt := r.created_at, UpdatedAt := r.updated_at }

/-- Embedding of `postgres.ProductRepository.Create` (part_003) together
with its `INSERT ... VALUES ($1,...,$5,NOW(),NOW()) RETURNING *` statement:
the store assigns the serial `id` and both timestamps, and the description
bound at `$3` is `nullStringFromString(product.Description.String)`.  The
schema has no unique constraint besides the primary key, so the `23505`
duplicate branch of the Go code is unreachable and the insert succeeds. -/
def repoCreate (db : DB) (now : Nat) (p : Product) : Except AppError Product × DB :=
  let row : Row :=
    { id := db.nextId, store_id := p.StoreID, name := p.Name,
      description := (nullStringFromString p.Description.str).toSql,
      amount := p.Amount, price := p.Price, created_at := now, updated_at := now }
  (Except.ok row.scan, { rows := db.rows ++ [row], nextId := db.nextId + 1 })

/-- Embedding of `postgres.ProductRepository.GetByID` (part_003): single
row `SELECT ... WHERE id = $1`; `sql.ErrNoRows` maps to
`domain.ErrProductNotFound`. -/
def repoGetByID (db : DB) (id : Int) : Except AppError Product :=
  match db.rows.find? (fun r => r.id == id) with
  | some r => Except.ok r.scan
  | none => Except.error AppError.productNotFound

/-- Embedding of `postgres.ProductRepository.GetAll` (part_003): rows
ordered by `created_at DESC`, windowed by `LIMIT $1 OFFSET $2`; an empty
page is not an error. -/
def repoGetAll (db : DB) (limit offset : Int) : Except AppError (List Product) :=
  let sorted := db.rows.insertionSort (fun a b => b.created_at ≤ a.created_at)
  Except.ok (((sorted.drop offset.toNat).take limit.toNat).map Row.scan)

/-- The row rewrite of the repository `UPDATE` statement: the five mutable
columns are replaced (description going through `nullStringFromString`
again) and `updated_at` is set to `NOW()`; `id` and `created_at` are not in
the SET list. -/
def updateRow (p : Product) (now : Nat) (r : Row) : Row :=
  { r with
    store_id := p.StoreID
    name := p.Name
    description := (nullStringFromString p.Description.str).toSql
    amount := p.Amount
    price := p.Price
    updated_at := now }

/-- Embedding of `postgres.ProductRepository.Update` (part_003):
`UPDATE ... WHERE id = $6 RETURNING *`; zero rows (`sql.ErrNoRows` from the
RETURNING scan) maps to `domain.ErrProductNotFound`.  The primary key makes
at most one row match, the one `find?` returns. -/
def repoUpdate (db : DB) (now : Nat) (id : Int) (p : Product) :
    Except AppError Product × DB :=
  match db.rows.find? (fun r => r.id == id) with
  | some r =>
    (Except.ok (updateRow p now r).scan,
     { db with rows := db.rows.map (fun q => if q.id == id then updateRow p now q else q) })
  | none => (Except.error AppError.productNotFound, db)

/-- Embedding of `postgres.ProductRepository.Delete` (part_003):
`DELETE FROM products WHERE id = $1`; `rowsAffected == 0` maps to
`domain.ErrProductNotFound`. -/
def repoDelete (db : DB) (id : Int) : Except AppError Unit × DB :=
  let remaining := db.rows.filter (fun r => r.id != id)
  if remaining.length == db.rows.length then (Except.error AppError.productNotFound, db)
  else (Except.ok (), { db with rows := remaining })

/-- Embedding of the `usecase.ProductRepository` capability interface
(internal/usecase/interfaces.go), abstracted over the persistence state
`σ`; the operations that execute SQL `NOW()` take the clock reading. -/
structure ProductRepositoryIntf (σ : Type) where
  create : σ → Nat → Product → Except AppError Product × σ
  getByID : σ → Int → Except AppError Product
  getAll : σ → Int → Int → Except AppError (List Product)
  update : σ → Nat → Int → Product → Except AppError Product × σ
  delete : σ → Int → Except AppError Unit × σ

/-- The postgres implementation of the repository interface. -/
def postgresRepo : ProductRepositoryIntf DB :=
  { create := repoCreate, getByID := repoGetByID, getAll := repoGetAll,
    update := repoUpdate, delete := repoDelete }

/-- Embedding of `ProductUseCase.CreateProduct`
(internal/usecase/product_usecase.go 23-47): validation failure is wrapped
as `fmt.Errorf("%w: %s", domain.ErrInvalidProduct, msg)`; a repository
error is wrapped with the "failed to create product" context, which
preserves its `errors.Is` kind. -/
def ProductUseCase.CreateProduct {σ : Type} (repo : ProductRepositoryIntf σ)
    (s : σ) (now : Nat) (p : Product) : Except AppError Product × σ :=
  match p.Validate with
  | some msg => (Except.error (AppError.invalidProduct ("invalid product data: " ++ msg)), s)
  | none =>
    match repo.create s now p with
    | (Except.error e, s2) => (Except.error (wrapErr "failed to create product" e), s2)
    | (Except.ok q, s2) => (Except.ok q, s2)

/-- Embedding of `ProductUseCase.GetProduct`
(internal/usecase/product_usecase.go 49-66): `id <= 0` is rejected as
`fmt.Errorf("%w: invalid product ID", domain.ErrInvalidProduct)` before any
repository call; repository errors are returned unchanged. -/
def ProductUseCase.GetProduct {σ : Type} (repo : ProductRepositoryIntf σ)
    (s : σ) (id : Int) : Except AppError Product :=
  if id ≤ 0 then Except.error (AppError.invalidProduct "invalid product data: invalid product ID")
  else repo.getByID s id

/-- Embedding of `ProductUseCase.GetProducts`
(internal/usecase/product_usecase.go 68-92): the three sequential
normalization rewrites of the Go code, then `GetAll`, whose error is
wrapped with the "failed to get products" context. -/
def ProductUseCase.GetProducts {σ : Type} (repo : ProductRepositoryIntf σ)
    (s : σ) (limit offset : Int) : Except AppError (List Product) :=
  let limit1 := if limit ≤ 0 then 10 else limit
  let limit2 := if limit1 > 100 then 100 else limit1
  let offset1 := if offset < 0 then 0 else offset
  match repo.getAll s limit2 offset1 with
  | Except.error e => Except.error (wrapErr "failed to get products" e)
  | Except.ok ps => Except.ok ps

/-- Embedding of `ProductUseCase.UpdateProduct`
(internal/usecase/product_usecase.go 94-121): `id <= 0` rejected as
InvalidInput, then domain validation, then the repository update whose
error is returned unchanged. -/
def ProductUseCase.UpdateProduct {σ : Type} (repo : ProductRepositoryIntf σ)
    (s : σ) (now : Nat) (id : Int) (p : Product) : Except AppError Product × σ :=
  if id ≤ 0 then
    (Except.error (AppError.invalidProduct "invalid product data: invalid product ID"), s)
  else
    match p.Validate with
    | some msg => (Except.error (AppError.invalidProduct ("invalid product data: " ++ msg)), s)
    | none => repo.update s now id p

/-- Embedding of `ProductUseCase.DeleteProduct`
(internal/usecase/product_usecase.go 123-144): `id <= 0` rejected as
InvalidInput before any repository call; the repository error is returned
unchanged. -/
def ProductUseCase.DeleteProduct {σ : Type} (repo : ProductRepositoryIntf σ)
    (s : σ) (id : Int) : Except AppError Unit × σ :=
  if id ≤ 0 then
    (Except.error (AppError.invalidProduct "invalid product data: invalid product ID"), s)
  else repo.delete s id

/-- Embedding of `dto.CreateProductRequest` (part_006): the wire shape of a
create request after JSON decoding.  `Description` is a plain Go string, so
an absent JSON field and an explicit empty string are indistinguishable
here. -/
structure CreateProductRequest where
  StoreID : Int
  Name : String
  Description : String
  Amount : Int
  Price : Rat
  deriving DecidableEq, Repr

/-- Embedding of `dto.UpdateProductRequest` (part_006), identical shape. -/
structure UpdateProductRequest where
  StoreID : Int
  Name : String
  Description : String
  Amount : Int
  Price : Rat
  deriving DecidableEq, Repr

/-- The Gin binding validation of `CreateProductRequest`, read off its
struct tags with the semantics of the go-playground validator Gin uses:
`required` fails when the field holds the zero value of its type (0, 0.0
or the empty string), `min`/`max` on numbers bound the value and on
strings bound the length.  Tags: store_id `required,min=1`; name
`required,min=1,max=100`; description `max=1000`; amount `required,min=0`;
price `required,min=0`. -/
def CreateProductRequest.bindOk (r : CreateProductRequest) : Bool :=
  (r.StoreID != 0) && decide (1 ≤ r.StoreID) &&
  (r.Name != "") && decide (1 ≤ goLen r.Name) && decide (goLen r.Name ≤ 100) &&
  decide (goLen r.Description ≤ 1000) &&
  (r.Amount != 0) && decide (0 ≤ r.Amount) &&
  (r.Price != 0) && decide (0 ≤ r.Price)

/-- The Gin binding validation of `UpdateProductRequest`; its tags are
identical to the create request's. -/
def UpdateProductRequest.bindOk (r : UpdateProductRequest) : Bool :=
  (r.StoreID != 0) && decide (1 ≤ r.StoreID) &&
  (r.Name != "") && decide (1 ≤ goLen r.Name) && decide (goLen r.Name ≤ 100) &&
  decide (goLen r.Description ≤ 1000) &&
  (r.Amount != 0) && decide (0 ≤ r.Amount) &&
  (r.Price != 0) && decide (0 ≤ r.Price)

/-- Embedding of `CreateProductRequest.ToDomain` (part_006 77-90): a
non-empty description becomes a valid `NullString`, the empty string the
zero-valued one; unset domain fields keep their Go zero values. -/
def CreateProductRequest.ToDomain (r : CreateProductRequest) : Product :=
  { ID := 0, StoreID := r.StoreID, Name := r.Name,
    Description := if r.Description != "" then ⟨r.Description, true⟩ else ⟨"", false⟩,
    Amount := r.Amount, Price := r.Price, CreatedAt := 0, UpdatedAt := 0 }

/-- Embedding of `UpdateProductRequest.ToDomain` (part_006 92-105). -/
def UpdateProductRequest.ToDomain (r : UpdateProductRequest) : Product :=
  { ID := 0, StoreID := r.StoreID, Name := r.Name,
    Description := if r.Description != "" then ⟨r.Description, true⟩ else ⟨"", false⟩,
    Amount := r.Amount, Price := r.Price, CreatedAt := 0, UpdatedAt := 0 }

/-- Embedding of `dto.ProductResponse` (part_006).  The RFC 3339 rendering
of the timestamps is abstracted to the timestamp value itself (the
rendering is injective on it). -/
structure ProductResponse where
  ID : Int
  StoreID : Int
  Name : String
  Description : String
  Amount : Int
  Price : Rat
  CreatedAt : Nat
  UpdatedAt : Nat
  deriving DecidableEq, Repr

/-- Embedding of `dto.ProductListResponse` (part_006). -/
structure ProductListResponse where
  Products : List ProductResponse
  Total : Int
  Limit : Int
  Offset : Int
  deriving DecidableEq, Repr

/-- Embedding of `dto.ErrorResponse` (part_006). -/
structure ErrorResponse where
  error : String
  message : String
  deriving DecidableEq, Repr

/-- Embedding of `dto.ToProductResponse` (part_006 107-123): an absent
description is surfaced as the empty string. -/
def ToProductResponse (p : Product) : ProductResponse :=
  { ID := p.ID, StoreID := p.StoreID, Name := p.Name,
    Description := if p.Description.valid then p.Description.str else "",
    Amount := p.Amount, Price := p.Price,
    CreatedAt := p.CreatedAt, UpdatedAt := p.UpdatedAt }

/-- Embedding of `dto.ToProductListResponse` (part_006 125-137): `Total`
is `len(products)`, and `Limit`/`Offset` echo the arguments the handler
passes in. -/
def ToProductListResponse (products : List Product) (limit offset : Int) :
    ProductListResponse :=
  { Products := products.map ToProductResponse,
    Total := products.length, Limit := limit, Offset := offset }

/-- The body of an HTTP response produced by the product handlers. -/
inductive Body where
  | product (p : ProductResponse)
  | list (l : ProductListResponse)
  | err (e : ErrorResponse)
  | empty
  deriving DecidableEq, Repr

/-- An HTTP response: status code plus serialized body. -/
structure HttpResponse where
  status : Nat
  body : Body
  deriving DecidableEq, Repr

/-- Embedding of `ProductHandler.handleError` (part_005 164-188): the
`errors.Is` switch over the three domain sentinels, with the default
branch answering 500 and a fixed generic body. -/
def handleError (e : AppError) : HttpResponse :=
  match e with
  | AppError.productNotFound =>
    ⟨404, Body.err ⟨"product_not_found", "Product not found"⟩⟩
  | AppError.invalidProduct msg =>
    ⟨400, Body.err ⟨"invalid_product", msg⟩⟩
  | AppError.duplicateProduct =>
    ⟨409, Body.err ⟨"duplicate_product", "Product with this name already exists"⟩⟩
  | AppError.internal _ =>
    ⟨500, Body.err ⟨"internal_server_error", "An internal error occurred"⟩⟩

/-- Base-10 digit accumulation used by the `strconv` embedding; `none` on
the first non-digit character. -/
def digitsVal : List Char → Nat → Option Nat
  | [], acc => some acc
  | c :: rest, acc =>
    if c.isDigit then digitsVal rest (acc * 10 + (c.toNat - 48)) else none

/-- Embedding of Go `strconv.ParseInt(s, 10, 64)` (and `strconv.Atoi`,
which equals it on a 64-bit platform): optional sign, at least one digit,
base-10 only, and a 64-bit range check; `none` models a non-nil error, in
which case callers ignore the clamped value Go also returns. -/
def strconvParseInt64 (s : String) : Option Int :=
  match s.data with
  | [] => none
  | c :: rest =>
    let ds := if c == '-' || c == '+' then rest else c :: rest
    if ds.isEmpty then none
    else
      match digitsVal ds 0 with
      | none => none
      | some n =>
        let v : Int := if c == '-' then -(n : Int) else (n : Int)
        if -(2 ^ 63) ≤ v ∧ v ≤ 2 ^ 63 - 1 then some v else none

/-- The `limit` parsing block of `ProductHandler.GetProducts` (part_005
83-88): start from 10, overwrite only when the query parameter is
non-empty, parses, and is positive. -/
def handlerLimit (limitParam : String) : Int :=
  if limitParam == "" then 10
  else
    match strconvParseInt64 limitParam with
    | some l => if l > 0 then l else 10
    | none => 10

/-- The `offset` parsing block of `ProductHandler.GetProducts` (part_005
90-95): start from 0, overwrite only when the query parameter is
non-empty, parses, and is non-negative. -/
def handlerOffset (offsetParam : String) : Int :=
  if offsetParam == "" then 0
  else
    match strconvParseInt64 offsetParam with
    | some o => if o ≥ 0 then o else 0
    | none => 0

/-- Embedding of `ProductHandler.GetProduct` (part_005 55-77) against the
postgres repository: parse the path id (400 on failure), call the use
case, map errors through `handleError`, else 200. -/
def ProductHandler.GetProduct (db : DB) (idParam : String) : HttpResponse :=
  match strconvParseInt64 idParam with
  | none => ⟨400, Body.err ⟨"invalid_id", "Product ID must be a valid number"⟩⟩
  | some id =>
    match ProductUseCase.GetProduct postgresRepo db id with
    | Except.error e => handleError e
    | Except.ok p => ⟨200, Body.product (ToProductResponse p)⟩

/-- Embedding of `ProductHandler.GetProducts` (part_005 79-105): lenient
query parsing, the use case call, and the list response built from the
handler's own `limit`/`offset` values. -/
def ProductHandler.GetProducts (db : DB) (limitParam offsetParam : String) :
    HttpResponse :=
  let limit := handlerLimit limitParam
  let offset := handlerOffset offsetParam
  match ProductUseCase.GetProducts postgresRepo db limit offset with
  | Except.error e => handleError e
  | Except.ok products =>
    ⟨200, Body.list (ToProductListResponse products limit offset)⟩

/-- Embedding of `ProductHandler.CreateProduct` (part_005 30-53): `none`
models a body `ShouldBindJSON` cannot decode; a decoded body that fails
the binding tags is also a 400 `validation_error` (the validator's
English message text is abstracted to the empty string, no verified
property reads it); only a bound body reaches the use case. -/
def ProductHandler.CreateProduct (db : DB) (now : Nat)
    (body : Option CreateProductRequest) : HttpResponse × DB :=
  match body with
  | none => (⟨400, Body.err ⟨"validation_error", ""⟩⟩, db)
  | some req =>
    if req.bindOk then
      match ProductUseCase.CreateProduct postgresRepo db now req.ToDomain with
      | (Except.error e, db2) => (handleError e, db2)
      | (Except.ok p, db2) => (⟨201, Body.product (ToProductResponse p)⟩, db2)
    else (⟨400, Body.err ⟨"validation_error", ""⟩⟩, db)

/-- Embedding of `ProductHandler.UpdateProduct` (part_005 107-140), with
the same binding model as the create handler. -/
def ProductHandler.UpdateProduct (db : DB) (now : Nat) (idParam : String)
    (body : Option UpdateProductRequest) : HttpResponse × DB :=
  match strconvParseInt64 idParam with
  | none => (⟨400, Body.err ⟨"invalid_id", "Product ID must be a valid number"⟩⟩, db)
  | some id =>
    match body with
    | none => (⟨400, Body.err ⟨"validation_error", ""⟩⟩, db)
    | some req =>
      if req.bindOk then
        match ProductUseCase.UpdateProduct postgresRepo db now id req.ToDomain with
        | (Except.error e, db2) => (handleError e, db2)
        | (Except.ok p, db2) => (⟨200, Body.product (ToProductResponse p)⟩, db2)
      else (⟨400, Body.err ⟨"validation_error", ""⟩⟩, db)

/-- Embedding of `ProductHandler.DeleteProduct` (part_005 142-162). -/
def ProductHandler.DeleteProduct (db : DB) (idParam : String) :
    HttpResponse × DB :=
  match strconvParseInt64 idParam with
  | none => (⟨400, Body.err ⟨"invalid_id", "Product ID must be a valid number"⟩⟩, db)
  | some id =>
    match ProductUseCase.DeleteProduct postgresRepo db id with
    | (Except.error e, db2) => (handleError e, db2)
    | (Except.ok _, db2) => (⟨204, Body.empty⟩, db2)

/-! Concrete fixtures used by witnesses and counterexamples. -/

/-- A fresh store: no rows, serial sequence at 1. -/
def emptyDB : DB := { rows := [], nextId := 1 }

/-- A stored row with id 1. -/
def sampleRow : Row :=
  { id := 1, store_id := 7, name := "Gadget", description := some "old",
    amount := 2, price := 5, created_at := 3, updated_at := 4 }

/-- A one-row store. -/
def db1 : DB := { rows := [sampleRow], nextId := 2 }

/-- A fully valid product whose description is absent. -/
def sampleProduct : Product :=
  { ID := 0, StoreID := 1, Name := "Widget", Description := ⟨"", false⟩,
    Amount := 10, Price := mkRat 2999 100, CreatedAt := 0, UpdatedAt := 0 }

/-- A fully valid product whose description is a present empty string
(`sql.NullString{String: "", Valid: true}`). -/
def presentEmptyProduct : Product :=
  { ID := 0, StoreID := 1, Name := "Widget", Description := ⟨"", true⟩,
    Amount := 10, Price := 3, CreatedAt := 0, UpdatedAt := 0 }

/-- A product violating the first validation rule (and several later
ones). -/
def badStoreProduct : Product :=
  { ID := 0, StoreID := 0, Name := "", Description := ⟨"", false⟩,
    Amount := -1, Price := 0, CreatedAt := 0, UpdatedAt := 0 }

/-- A valid product carrying a non-empty description. -/
def descProduct : Product :=
  { ID := 0, StoreID := 1, Name := "Widget", Description := ⟨"nice", true⟩,
    Amount := 10, Price := 3, CreatedAt := 0, UpdatedAt := 0 }

/-- A create request fixture (its `amount` is 0, which also exhibits C4). -/
def sampleCreateRequest : CreateProductRequest :=
  { StoreID := 1, Name := "Widget", Description := "", Amount := 0,
    Price := mkRat 2999 100 }

/-- An update request fixture. -/
def sampleUpdateRequest : UpdateProductRequest :=
  { StoreID := 7, Name := "Gadget", Description := "d", Amount := 1, Price := 2 }

/-- An update request identical to `sampleCreateRequest`: amount 0, every
other field valid. -/
def zeroAmountUpdateRequest : UpdateProductRequest :=
  { StoreID := 1, Name := "Widget", Description := "", Amount := 0,
    Price := mkRat 2999 100 }

/-- The record Create returns for `sampleProduct` against the empty store
at clock 7. -/
def createdSample : Product := Row.scan
  { id := 1, store_id := 1, name := "Widget", description := none,
    amount := 10, price := mkRat 2999 100, created_at := 7, updated_at := 7 }

/-- A three-row fixture store. -/
def db3 : DB :=
  { rows :=
      [{ id := 1, store_id := 1, name := "P1", description := none,
         amount := 1, price := 1, created_at := 1, updated_at := 1 },
       { id := 2, store_id := 1, name := "P2", description := none,
         amount := 2, price := 2, created_at := 2, updated_at := 2 },
       { id := 3, store_id := 1, name := "P3", description := none,
         amount := 3, price := 3, created_at := 3, updated_at := 3 }],
    nextId := 4 }

/-- C1: `Validate(p)` is nil exactly when all six spec rules hold
(store_id > 0, name non-empty, len(name) <= 100, description absent or
len <= 1000, amount >= 0, price > 0); the rules are checked in that order,
the first failing one determines the message; and any violation surfaces
from the use case as the single InvalidInput kind
(`domain.ErrInvalidProduct`). -/
theorem C1_validate_rules (p : Product) :
    (p.Validate = none ↔
      (0 < p.StoreID ∧ p.Name ≠ "" ∧ goLen p.Name ≤ 100 ∧
        (p.Description.valid = true → goLen p.Description.str ≤ 1000) ∧
        0 ≤ p.Amount ∧ 0 < p.Price))
    ∧ (p.StoreID ≤ 0 → p.Validate = some "store_id must be positive")
    ∧ (0 < p.StoreID → p.Name = "" → p.Validate = some "name is required")
    ∧ (0 < p.StoreID → p.Name ≠ "" → 100 < goLen p.Name →
        p.Validate = some "name must not exceed 100 characters")
    ∧ (0 < p.StoreID → p.Name ≠ "" → goLen p.Name ≤ 100 →
        p.Description.valid = true → 1000 < goLen p.Description.str →
        p.Validate = some "description must not exceed 1000 characters")
    ∧ (0 < p.StoreID → p.Name ≠ "" → goLen p.Name ≤ 100 →
        (p.Description.valid = true → goLen p.Description.str ≤ 1000) →
        p.Amount < 0 → p.Validate = some "amount must be non-negative")
    ∧ (0 < p.StoreID → p.Name ≠ "" → goLen p.Name ≤ 100 →
        (p.Description.valid = true → goLen p.Description.str ≤ 1000) →
        0 ≤ p.Amount → p.Price ≤ 0 → p.Validate = some "price must be positive")
    ∧ (∀ {σ : Type} (repo : ProductRepositoryIntf σ) (s : σ) (now : Nat) (msg : String),
        p.Validate = some msg →
        ProductUseCase.CreateProduct repo s now p =
          (Except.error (AppError.invalidProduct ("invalid product data: " ++ msg)), s)) := by
  refine ⟨?_, ?_, ?_, ?_, ?_, ?_, ?_, ?_⟩
  · constructor
    · intro h
      simp only [Product.Validate] at h
      split_ifs at h with h1 h2 h3 h4 h5 h6
      refine ⟨by omega, h2, by omega, ?_, by omega, ?_⟩
      · intro hv
        by_contra hlen
        exact h4 ⟨hv, by omega⟩
      · simp only [Product.IsValidPrice, Bool.not_eq_true', decide_eq_false_iff_not,
          not_not] at h6
        exact h6
    · rintro ⟨h1, h2, h3, h4, h5, h6⟩
      simp only [Product.Validate, Product.IsValidPrice]
      rw [if_neg (by omega), if_neg h2, if_neg (by omega),
        if_neg (by intro hc; exact absurd (h4 hc.1) (by omega)),
        if_neg (by omega), if_neg (by simp [h6])]
  · intro h1
    simp only [Product.Validate]
    rw [if_pos h1]
  · intro h1 h2
    simp only [Product.Validate]
    rw [if_neg (by omega), if_pos h2]
  · intro h1 h2 h3
    simp only [Product.Validate]
    rw [if_neg (by omega), if_neg h2, if_pos (by omega)]
  · intro h1 h2 h3 h4 h5
    simp only [Product.Validate]
    rw [if_neg (by omega), if_neg h2, if_neg (by omega), if_pos ⟨h4, by omega⟩]
  · intro h1 h2 h3 h4 h5
    simp only [Product.Validate]
    rw [if_neg (by omega), if_neg h2, if_neg (by omega),
      if_neg (by intro hc; exact absurd (h4 hc.1) (by omega)), if_pos h5]
  · intro h1 h2 h3 h4 h5 h6
    simp only [Product.Validate, Product.IsValidPrice]
    rw [if_neg (by omega), if_neg h2, if_neg (by omega),
      if_neg (by intro hc; exact absurd (h4 hc.1) (by omega)),
      if_neg (by omega), if_pos (by simp [not_lt.mpr h6])]
  · intro σ repo s now msg h
    simp only [ProductUseCase.CreateProduct, h]

/-- Witness for C1 at a concrete input: the first rule fails for
`badStoreProduct` and determines the message. -/
theorem C1_witness :
    Product.Validate badStoreProduct = some "store_id must be positive" :=
  (C1_validate_rules badStoreProduct).2.1 (by decide)

/-- C2: `GetProducts(limit, offset)` never fails because of the pagination
values and calls the repository `GetAll` with the normalized ones:
limit 10 when `limit <= 0`, clamped to 100 when `limit > 100`, passed
through otherwise; offset 0 when `offset < 0`, passed through otherwise.
In particular limit 0 behaves like limit 10, limit 500 like limit 100 and
offset -5 like offset 0. -/
theorem C2_getProducts_normalization {σ : Type} (repo : ProductRepositoryIntf σ)
    (s : σ) (limit offset : Int) :
    (ProductUseCase.GetProducts repo s limit offset =
      match repo.getAll s
          (if limit ≤ 0 then 10 else if limit > 100 then 100 else limit)
          (if offset < 0 then 0 else offset) with
        | Except.error e => Except.error (wrapErr "failed to get products" e)
        | Except.ok ps => Except.ok ps)
    ∧ ((∀ l o, ∃ ps, repo.getAll s l o = Except.ok ps) →
        ∃ ps, ProductUseCase.GetProducts repo s limit offset = Except.ok ps)
    ∧ ProductUseCase.GetProducts repo s 0 offset =
        ProductUseCase.GetProducts repo s 10 offset
    ∧ ProductUseCase.GetProducts repo s 500 offset =
        ProductUseCase.GetProducts repo s 100 offset
    ∧ ProductUseCase.GetProducts repo s limit (-5) =
        ProductUseCase.GetProducts repo s limit 0 := by
  have hnorm :
      (if (if limit ≤ 0 then (10 : Int) else limit) > 100 then (100 : Int)
        else if limit ≤ 0 then (10 : Int) else limit) =
      (if limit ≤ 0 then (10 : Int) else if limit > 100 then 100 else limit) := by
    split_ifs <;> omega
  have hmain : ProductUseCase.GetProducts repo s limit offset =
      match repo.getAll s
          (if limit ≤ 0 then 10 else if limit > 100 then 100 else limit)
          (if offset < 0 then 0 else offset) with
        | Except.error e => Except.error (wrapErr "failed to get products" e)
        | Except.ok ps => Except.ok ps := by
    simp only [ProductUseCase.GetProducts]
    rw [hnorm]
  refine ⟨hmain, ?_, ?_, ?_, ?_⟩
  · intro hok
    obtain ⟨ps, hps⟩ := hok
      (if limit ≤ 0 then 10 else if limit > 100 then 100 else limit)
      (if offset < 0 then 0 else offset)
    exact ⟨ps, by rw [hmain, hps]⟩
  · simp only [ProductUseCase.GetProducts]
    norm_num
  · simp only [ProductUseCase.GetProducts]
    norm_num
  · simp only [ProductUseCase.GetProducts]
    norm_num

/-- Witness for C2: against the postgres repository (whose `GetAll` always
succeeds) a nonsense pagination pair still yields a page. -/
theorem C2_witness :
    ∃ ps, ProductUseCase.GetProducts postgresRepo db1 (-3) (-7) = Except.ok ps :=
  (C2_getProducts_normalization postgresRepo db1 (-3) (-7)).2.1 (fun _ _ => ⟨_, rfl⟩)

/-- Round-tripping a `NullString` through the SQL binding used by the
repository collapses it to `nullStringFromString` of its string field. -/
theorem scanNull_nullStringFromString (s : String) :
    scanNullString (nullStringFromString s).toSql = nullStringFromString s := by
  simp only [nullStringFromString, NullString.toSql]
  split_ifs <;> simp_all [scanNullString]

/-- Counterexample to C3: a product whose description is present but empty
(`sql.NullString{String:"", Valid:true}`) is persisted by `Create` as an
absent description (NULL in the row, `Valid:false` in the returned
record), because the repository rebinds it through
`nullStringFromString(product.Description.String)`. -/
theorem C3_counterexample :
    presentEmptyProduct.Description.valid = true
    ∧ (repoCreate emptyDB 5 presentEmptyProduct).1.map (fun q => q.Description)
        = Except.ok ⟨"", false⟩
    ∧ (repoCreate emptyDB 5 presentEmptyProduct).2.rows.map (fun r => r.description)
        = [none] :=
  ⟨rfl, rfl, rfl⟩

/-- C3 as amended: the persisted description is `nullStringFromString` of
the incoming description's string field — present with the same string
when that string is non-empty, absent when it is empty or the description
was absent (a present-but-empty description is collapsed to absent, both
by Create/Update and by the DTO-to-domain conversion, whose plain-string
`description` field cannot even carry the distinction). -/
theorem C3_description_roundtrip (db : DB) (now : Nat) (id : Int) (p : Product)
    (r : CreateProductRequest) (u : UpdateProductRequest) :
    ((repoCreate db now p).1.map (fun q => q.Description)
        = Except.ok (nullStringFromString p.Description.str))
    ∧ (∃ row, (repoCreate db now p).2.rows = db.rows ++ [row]
        ∧ row.description
            = (if p.Description.str = "" then none else some p.Description.str))
    ∧ (p.Description.str ≠ "" →
        (repoCreate db now p).1.map (fun q => q.Description)
          = Except.ok ⟨p.Description.str, true⟩)
    ∧ (p.Description.str = "" →
        (repoCreate db now p).1.map (fun q => q.Description)
          = Except.ok ⟨"", false⟩)
    ∧ (∀ q db2, repoUpdate db now id p = (Except.ok q, db2) →
        q.Description = nullStringFromString p.Description.str)
    ∧ r.ToDomain.Description = nullStringFromString r.Description
    ∧ u.ToDomain.Description = nullStringFromString u.Description := by
  refine ⟨?_, ?_, ?_, ?_, ?_, ?_, ?_⟩
  · simp [repoCreate, Row.scan, scanNull_nullStringFromString, Except.map]
  · refine ⟨_, rfl, ?_⟩
    simp only [nullStringFromString, NullString.toSql]
    split_ifs <;> simp_all
  · intro h
    simp [repoCreate, Row.scan, scanNull_nullStringFromString,
      nullStringFromString, h, Except.map, scanNullString, NullString.toSql]
  · intro h
    simp [repoCreate, Row.scan, scanNull_nullStringFromString,
      nullStringFromString, h, Except.map, scanNullString, NullString.toSql]
  · intro q db2 hq
    cases hfind : db.rows.find? (fun row => row.id == id) with
    | none => simp [repoUpdate, hfind] at hq
    | some row =>
      simp only [repoUpdate, hfind] at hq
      cases hq
      simp [Row.scan, updateRow, scanNull_nullStringFromString]
  · simp only [CreateProductRequest.ToDomain, nullStringFromString]
    split_ifs <;> simp_all
  · simp only [UpdateProductRequest.ToDomain, nullStringFromString]
    split_ifs <;> simp_all

/-- Witness for (amended) C3: a non-empty description survives Create as a
present value with the same string. -/
theorem C3_witness :
    (repoCreate emptyDB 5 descProduct).1.map (fun q => q.Description)
      = Except.ok ⟨"nice", true⟩ :=
  (C3_description_roundtrip emptyDB 5 0 descProduct sampleCreateRequest
    sampleUpdateRequest).2.2.1 (by decide)

/-- C4, evaluated at the failing input: a create/update request with
`amount = 0` and every other field valid fails the Gin binding (the
`required` tag rejects the integer zero value), so the handler answers 400
and never reaches the use case or the store — although the domain
validation of the very same payload succeeds, showing `amount = 0` is
meant to be acceptable. -/
theorem C4_amount_zero_rejected_by_binding (db : DB) (now : Nat) :
    CreateProductRequest.bindOk sampleCreateRequest = false
    ∧ UpdateProductRequest.bindOk zeroAmountUpdateRequest = false
    ∧ sampleCreateRequest.ToDomain.Validate = none
    ∧ zeroAmountUpdateRequest.ToDomain.Validate = none
    ∧ ProductHandler.CreateProduct db now (some sampleCreateRequest)
        = (⟨400, Body.err ⟨"validation_error", ""⟩⟩, db)
    ∧ ProductHandler.UpdateProduct db now "1" (some zeroAmountUpdateRequest)
        = (⟨400, Body.err ⟨"validation_error", ""⟩⟩, db) :=
  ⟨rfl, rfl, by decide, by decide, rfl, rfl⟩

/-- C5: the delivery layer maps each use-case error kind to exactly one
status code — NotFound to 404, InvalidInput to 400, Duplicate to 409 — and
any other error to 500 with a fixed generic body that is independent of
the underlying error detail. -/
theorem C5_handleError_mapping (e : AppError) :
    ((handleError e).status = 404 ↔ e = AppError.productNotFound)
    ∧ ((handleError e).status = 400 ↔ ∃ m, e = AppError.invalidProduct m)
    ∧ ((handleError e).status = 409 ↔ e = AppError.duplicateProduct)
    ∧ ((∀ m, e ≠ AppError.invalidProduct m) → e ≠ AppError.productNotFound →
        e ≠ AppError.duplicateProduct →
        handleError e
          = ⟨500, Body.err ⟨"internal_server_error", "An internal error occurred"⟩⟩)
    ∧ (∀ m1 m2, handleError (AppError.internal m1)
        = handleError (AppError.internal m2)) := by
  cases e <;> simp [handleError]

/-- Witness for C5: an unclassified persistence failure is answered with
500 and the generic body, its detail dropped. -/
theorem C5_witness :
    handleError (AppError.internal "pq: connection refused")
      = ⟨500, Body.err ⟨"internal_server_error", "An internal error occurred"⟩⟩ :=
  (C5_handleError_mapping (AppError.internal "pq: connection refused")).2.2.2.1
    (fun _ h => nomatch h) (fun h => nomatch h) (fun h => nomatch h)

/-- C6: for any `id <= 0`, GetProduct, UpdateProduct and DeleteProduct
answer the InvalidInput kind with the state unchanged, uniformly in the
repository (so no repository operation is invoked), and a GET of
`/api/v1/products/0` is a 400. -/
theorem C6_nonpositive_id_rejected {σ : Type} (repo : ProductRepositoryIntf σ)
    (s : σ) (now : Nat) (id : Int) (p : Product) (h : id ≤ 0) :
    ProductUseCase.GetProduct repo s id
      = Except.error (AppError.invalidProduct "invalid product data: invalid product ID")
    ∧ ProductUseCase.UpdateProduct repo s now id p
      = (Except.error (AppError.invalidProduct "invalid product data: invalid product ID"), s)
    ∧ ProductUseCase.DeleteProduct repo s id
      = (Except.error (AppError.invalidProduct "invalid product data: invalid product ID"), s)
    ∧ ∀ db : DB, ProductHandler.GetProduct db "0"
        = ⟨400, Body.err ⟨"invalid_product", "invalid product data: invalid product ID"⟩⟩ := by
  refine ⟨?_, ?_, ?_, fun db => rfl⟩
  · simp [ProductUseCase.GetProduct, h]
  · simp [ProductUseCase.UpdateProduct, h]
  · simp [ProductUseCase.DeleteProduct, h]

/-- Witness for C6 at id 0 against the postgres repository. -/
theorem C6_witness :
    ProductUseCase.GetProduct postgresRepo db1 0
      = Except.error (AppError.invalidProduct "invalid product data: invalid product ID") :=
  (C6_nonpositive_id_rejected postgresRepo db1 3 0 sampleProduct (by decide)).1

/-- Counterexample to C7: updating the stored row with a replacement whose
description is present but empty does not store the replacement value —
the row gets NULL and the returned record `Valid:false`, while the
replacement's description is `{String:"", Valid:true}`. -/
theorem C7_counterexample :
    presentEmptyProduct.Description = ⟨"", true⟩
    ∧ (repoUpdate db1 10 1 presentEmptyProduct).1.map (fun q => q.Description)
        = Except.ok ⟨"", false⟩
    ∧ (repoUpdate db1 10 1 presentEmptyProduct).2.rows.map (fun r => r.description)
        = [none] :=
  ⟨rfl, rfl, rfl⟩

/-- C7 as amended: a successful Update leaves `id` and `created_at` of the
stored row unchanged, replaces `store_id`, `name`, `amount` and `price`
with the replacement values, replaces the description with the
replacement's description passed through `nullStringFromString` (present
iff its string is non-empty), and sets `updated_at` to the update-time
clock, so `updated_at >= created_at` keeps holding whenever the clock has
not run backwards since the insert. -/
theorem C7_update_frame (db : DB) (now : Nat) (id : Int) (p : Product) (row : Row)
    (hfind : db.rows.find? (fun r => r.id == id) = some row)
    (hclk : row.created_at ≤ now) :
    ∃ q, repoUpdate db now id p
        = (Except.ok q,
           { db with
             rows := db.rows.map (fun r => if r.id == id then updateRow p now r else r) })
      ∧ q.ID = row.id ∧ q.ID = id ∧ q.CreatedAt = row.created_at
      ∧ q.StoreID = p.StoreID ∧ q.Name = p.Name ∧ q.Amount = p.Amount
      ∧ q.Price = p.Price
      ∧ q.Description = nullStringFromString p.Description.str
      ∧ q.UpdatedAt = now ∧ q.CreatedAt ≤ q.UpdatedAt
      ∧ (∀ r : Row, (updateRow p now r).id = r.id
          ∧ (updateRow p now r).created_at = r.created_at) := by
  have hid : row.id = id := by
    have := List.find?_some hfind
    simpa using this
  refine ⟨(updateRow p now row).scan, ?_, rfl, hid, rfl, rfl, rfl, rfl, rfl, ?_, rfl, hclk,
    fun r => ⟨rfl, rfl⟩⟩
  · simp only [repoUpdate, hfind]
  · simp [Row.scan, updateRow, scanNull_nullStringFromString]

/-- Witness for (amended) C7: the updated record keeps the fixture row's
creation time. -/
theorem C7_witness :
    (repoUpdate db1 10 1 descProduct).1.map (fun q => q.CreatedAt)
      = Except.ok 3 := by
  obtain ⟨q, hq, _, _, hc, _⟩ := C7_update_frame db1 10 1 descProduct sampleRow rfl
    (by decide)
  rw [hq]
  simp only [Except.map]
  rw [hc]
  rfl

/-- No row surviving the delete filter matches the deleted id. -/
theorem find?_filter_ne_id (rows : List Row) (id : Int) :
    (rows.filter (fun r => r.id != id)).find? (fun r => r.id == id) = none := by
  apply List.find?_eq_none.mpr
  intro x hx
  have hne := (List.mem_filter.mp hx).2
  simpa using hne

/-- C8: after a Delete succeeds, GetByID on the same id answers NotFound;
and Delete on an id with no matching row — in particular an id already
deleted — itself answers NotFound and leaves the store unchanged. -/
theorem C8_delete_then_get (db db2 : DB) (id : Int) :
    (repoDelete db id = (Except.ok (), db2) →
      repoGetByID db2 id = Except.error AppError.productNotFound)
    ∧ ((∀ r ∈ db.rows, r.id ≠ id) →
      repoDelete db id = (Except.error AppError.productNotFound, db))
    ∧ (repoDelete db id = (Except.ok (), db2) →
      (repoDelete db2 id).1 = Except.error AppError.productNotFound) := by
  have hrows : ∀ d2 : DB, repoDelete db id = (Except.ok (), d2) →
      d2.rows = db.rows.filter (fun r => r.id != id) := by
    intro d2 h
    simp only [repoDelete] at h
    split_ifs at h with hlen
    · simp at h
    · rw [Prod.mk.injEq] at h
      rw [← h.2]
  refine ⟨?_, ?_, ?_⟩
  · intro h
    rw [repoGetByID, hrows db2 h, find?_filter_ne_id]
  · intro hnone
    have hfil : db.rows.filter (fun r => r.id != id) = db.rows :=
      List.filter_eq_self.mpr (fun a ha => by simpa using hnone a ha)
    simp only [repoDelete, hfil]
    simp
  · intro h
    have h2 : ∀ r ∈ db2.rows, r.id ≠ id := by
      intro r hr
      rw [hrows db2 h] at hr
      have := (List.mem_filter.mp hr).2
      simpa using this
    have hfil : db2.rows.filter (fun r => r.id != id) = db2.rows :=
      List.filter_eq_self.mpr (fun a ha => by simpa using h2 a ha)
    simp only [repoDelete, hfil]
    simp

/-- Witness for C8 on the one-row fixture store. -/
theorem C8_witness :
    repoGetByID (repoDelete db1 1).2 1 = Except.error AppError.productNotFound :=
  (C8_delete_then_get db1 (repoDelete db1 1).2 1).1 rfl

/-- C9: Create then GetByID on the returned id yields exactly the record
Create returned, in all fields, provided the serial sequence is ahead of
every stored id (the invariant the serial primary key maintains). -/
theorem C9_create_roundtrip (db : DB) (now : Nat) (p : Product)
    (hfresh : ∀ r ∈ db.rows, r.id ≠ db.nextId) :
    ∀ q db2, repoCreate db now p = (Except.ok q, db2) →
      repoGetByID db2 q.ID = Except.ok q := by
  intro q db2 h
  simp only [repoCreate, Prod.mk.injEq] at h
  obtain ⟨h1, h2⟩ := h
  injection h1 with h1
  subst h1
  subst h2
  simp only [repoGetByID, Row.scan, List.find?_append]
  rw [List.find?_eq_none.mpr (fun x hx => by simpa using hfresh x hx)]
  simp [Row.scan]

/-- Witness for C9 on the empty fixture store. -/
theorem C9_witness :
    repoGetByID (repoCreate emptyDB 7 sampleProduct).2 createdSample.ID
      = Except.ok createdSample :=
  C9_create_roundtrip emptyDB 7 sampleProduct
    (fun r hr => absurd hr (by simp [emptyDB])) createdSample
    (repoCreate emptyDB 7 sampleProduct).2 rfl

/-- C10 (implicit): the `Total` of the list response is the length of the
returned page — not the number of rows in the store — and `Limit`/`Offset`
echo the handler's parsed values, not the use case's normalized ones: with
three stored rows, `limit=2` answers `Total = 2`, and `limit=500` answers
`Limit = 500` (though the query ran with the clamp 100) with `Total = 3`. -/
theorem C10_list_response (products : List Product) (limit offset : Int)
    (db : DB) (lp op : String) :
    (ToProductListResponse products limit offset).Total = products.length
    ∧ (ToProductListResponse products limit offset).Limit = limit
    ∧ (ToProductListResponse products limit offset).Offset = offset
    ∧ (ToProductListResponse products limit offset).Products.length = products.length
    ∧ (∃ resp, ProductHandler.GetProducts db lp op = ⟨200, Body.list resp⟩
        ∧ resp.Limit = handlerLimit lp ∧ resp.Offset = handlerOffset op
        ∧ resp.Total = resp.Products.length)
    ∧ (∃ resp, ProductHandler.GetProducts db3 "2" "" = ⟨200, Body.list resp⟩
        ∧ resp.Total = 2 ∧ resp.Limit = 2 ∧ db3.rows.length = 3)
    ∧ (∃ resp, ProductHandler.GetProducts db3 "500" "" = ⟨200, Body.list resp⟩
        ∧ resp.Limit = 500 ∧ resp.Total = 3) := by
  refine ⟨rfl, rfl, rfl, by simp [ToProductListResponse], ?_, ?_, ?_⟩
  · refine ⟨_, rfl, rfl, rfl, ?_⟩
    simp [ToProductListResponse]
  · exact ⟨_, rfl, by decide, by decide, by decide⟩
  · exact ⟨_, rfl, by decide, by decide⟩
